import Mathlib

/-!
Verification of the PO-Tracker native backend (`src/src-tauri/src/lib.rs`)
against its natural-language specification.

The Rust backend is a set of thin RPC handlers.  Pure string/list logic is
translated directly; each outbound HTTP interaction is modelled by passing the
response (status and body text) — or, for helper calls, their `Result`
outcome — as an explicit argument, and JSON (de)serialisation by an explicit
parse function argument, mirroring `serde_json`'s fallibility.  Fallible Rust
functions returning `Result<T, String>` become `Except String T`.
-/

/-! ## Generic list-search utilities

`findSub` models Rust's `str::find(pattern)` (byte index of the first
occurrence of a substring; all strings involved are ASCII so char indices and
byte indices coincide).  `splitFirst` and `stripPre` are the corresponding
split/strip operations used by the round-trip parser model.
-/

/-- Index of the first occurrence of `n` in `s`, as in Rust's `str::find`. -/
def findSub (n : List Char) : List Char → Option Nat
  | [] => if n.isPrefixOf ([] : List Char) then some 0 else none
  | c :: t => if n.isPrefixOf (c :: t) then some 0 else (findSub n t).map (· + 1)

/-- Split `s` at the first occurrence of `n`: the part before and the part after. -/
def splitFirst (n s : List Char) : Option (List Char × List Char) :=
  match findSub n s with
  | some i => some (s.take i, s.drop (i + n.length))
  | none => none

/-- Strip a literal leading pattern, as in parsing a known header label. -/
def stripPre (p s : List Char) : Option (List Char) :=
  if p.isPrefixOf s then some (s.drop p.length) else none

/-- Whether `n` occurs anywhere in `s` (Rust's `str::contains`). -/
def containsSub (n s : List Char) : Bool :=
  (findSub n s).isSome

theorem isPrefixOf_self_append (l s : List Char) : l.isPrefixOf (l ++ s) = true := by
  induction l with
  | nil => simp [List.isPrefixOf]
  | cons a t ih => simp [List.isPrefixOf, ih]

theorem findSub_some (n : List Char) :
    ∀ (s : List Char) (i : Nat),
      n.isPrefixOf (s.drop i) = true →
      (∀ j, j < i → n.isPrefixOf (s.drop j) = false) →
      findSub n s = some i := by
  intro s
  induction s with
  | nil =>
    intro i h1 h2
    cases i with
    | zero => simp only [List.drop] at h1; simp [findSub, h1]
    | succ k =>
      have h0 := h2 0 (Nat.succ_pos k)
      simp only [List.drop] at h1 h0
      rw [h1] at h0
      exact absurd h0 (by simp)
  | cons c t ih =>
    intro i h1 h2
    cases i with
    | zero => simp only [List.drop] at h1; simp [findSub, h1]
    | succ k =>
      have h0 := h2 0 (Nat.succ_pos k)
      simp only [List.drop] at h0
      have hrec : findSub n t = some k := by
        apply ih k
        · simpa [List.drop] using h1
        · intro j hj
          have := h2 (j + 1) (Nat.succ_lt_succ hj)
          simpa [List.drop] using this
      simp [findSub, h0, hrec]

theorem findSub_none (n : List Char) :
    ∀ (s : List Char),
      (∀ j, j ≤ s.length → n.isPrefixOf (s.drop j) = false) →
      findSub n s = none := by
  intro s
  induction s with
  | nil =>
    intro h
    have h0 := h 0 (Nat.le_refl 0)
    simp only [List.drop] at h0
    simp [findSub, h0]
  | cons c t ih =>
    intro h
    have h0 := h 0 (Nat.zero_le _)
    simp only [List.drop] at h0
    have hrec : findSub n t = none := by
      apply ih
      intro j hj
      have := h (j + 1) (by simpa using Nat.succ_le_succ hj)
      simpa [List.drop] using this
    simp [findSub, h0, hrec]

theorem stripPre_append (p r : List Char) : stripPre p (p ++ r) = some r := by
  simp [stripPre, isPrefixOf_self_append, List.drop_left]

/-- Dropping strictly inside the left part of an append exposes an element of it. -/
theorem drop_cons_of_lt {α : Type} (a r : List α) :
    ∀ j, j < a.length → ∃ x t, (a ++ r).drop j = x :: t ∧ x ∈ a := by
  induction a with
  | nil => intro j hj; exact absurd hj (by simp)
  | cons y a' ih =>
    intro j hj
    cases j with
    | zero => exact ⟨y, a' ++ r, rfl, List.mem_cons_self y a'⟩
    | succ k =>
      obtain ⟨x, t, heq, hx⟩ := ih k (Nat.lt_of_succ_lt_succ hj)
      exact ⟨x, t, heq, List.mem_cons_of_mem y hx⟩

/-- Dropping strictly inside the left part of an append exposes either two of its
elements in a row, or its last element followed by the right part. -/
theorem drop_two_of_lt {α : Type} (a r : List α) :
    ∀ j, j < a.length →
      (∃ x y t, (a ++ r).drop j = x :: y :: t ∧ x ∈ a ∧ y ∈ a) ∨
      (∃ x, (a ++ r).drop j = x :: r ∧ x ∈ a) := by
  induction a with
  | nil => intro j hj; exact absurd hj (by simp)
  | cons y a' ih =>
    intro j hj
    cases j with
    | zero =>
      cases a' with
      | nil => exact Or.inr ⟨y, rfl, List.mem_cons_self y []⟩
      | cons z a'' =>
        exact Or.inl ⟨y, z, a'' ++ r, rfl, List.mem_cons_self _ _,
          List.mem_cons_of_mem _ (List.mem_cons_self _ _)⟩
    | succ k =>
      rcases ih k (Nat.lt_of_succ_lt_succ hj) with ⟨x, z, t, heq, hx, hz⟩ | ⟨x, heq, hx⟩
      · exact Or.inl ⟨x, z, t, heq, List.mem_cons_of_mem y hx, List.mem_cons_of_mem y hz⟩
      · exact Or.inr ⟨x, heq, List.mem_cons_of_mem y hx⟩

/-- A pattern whose first character never occurs in `a` cannot match inside `a`. -/
theorem no_occ_head (c0 : Char) (n' : List Char) (a r : List Char) (hmem : c0 ∉ a) :
    ∀ j, j < a.length → (c0 :: n').isPrefixOf ((a ++ r).drop j) = false := by
  intro j hj
  obtain ⟨x, t, heq, hx⟩ := drop_cons_of_lt a r j hj
  rw [heq]
  simp only [List.isPrefixOf]
  by_cases hcx : c0 = x
  · exact absurd (hcx ▸ hx) hmem
  · simp [beq_eq_false_iff_ne, hcx]

/-- A two-character pattern `[c0, c1]` cannot match strictly inside `a` when `c1`
never occurs in `a` and differs from `c0` (so a match straddling the boundary of
`a ++ c0 :: c1 :: r` is also impossible). -/
theorem no_occ_pair (c0 c1 : Char) (a r : List Char) (hmem : c1 ∉ a) (hne : c1 ≠ c0) :
    ∀ j, j < a.length → ([c0, c1]).isPrefixOf ((a ++ (c0 :: c1 :: r)).drop j) = false := by
  intro j hj
  rcases drop_two_of_lt a (c0 :: c1 :: r) j hj with ⟨x, y, t, heq, _, hy⟩ | ⟨x, heq, _⟩
  · rw [heq]
    simp only [List.isPrefixOf]
    by_cases hcy : c1 = y
    · exact absurd (hcy ▸ hy) hmem
    · simp [beq_eq_false_iff_ne, hcy]
  · rw [heq]
    simp only [List.isPrefixOf]
    simp [beq_eq_false_iff_ne, hne]

/-- Splitting at the first occurrence of `n` in `a ++ (n ++ b)` yields `(a, b)`
when no occurrence of `n` starts inside `a`. -/
theorem splitFirst_eq (n a b : List Char)
    (h : ∀ j, j < a.length → n.isPrefixOf ((a ++ (n ++ b)).drop j) = false) :
    splitFirst n (a ++ (n ++ b)) = some (a, b) := by
  have hfind : findSub n (a ++ (n ++ b)) = some a.length := by
    apply findSub_some
    · rw [List.drop_left]; exact isPrefixOf_self_append n b
    · exact h
  simp only [splitFirst, hfind]
  have hdrop : (a ++ (n ++ b)).drop (a.length + n.length) = b := by
    rw [← List.drop_drop, List.drop_left, List.drop_left]
  rw [List.take_left, hdrop]

/-! ## Port scan and authorization URL (`start_oauth_flow`, lib.rs 240–280)

Binding a TCP port either succeeds or fails depending on the environment; this
is abstracted as a predicate `free : Nat → Bool` saying which ports the
`TcpListener::bind` probe would accept.  The Rust loop starts at 8080 and
probes at most the 11 ports 8080..=8090.
-/

/-- The probe loop of `start_oauth_flow`: try `fuel` consecutive ports starting
at `port`, returning the first one that binds. -/
def scanPorts (free : Nat → Bool) : Nat → Nat → Option Nat
  | _, 0 => none
  | port, fuel + 1 => if free port then some port else scanPorts free (port + 1) fuel

/-- Model of the repository's private `urlencoding::encode` (lib.rs 818–828) on a
single character: alphanumerics and `-`, `_`, `.`, `~` are kept, space becomes
`%20`, anything else becomes `%XX` with the char cast to `u8` (truncation
modelled by `% 256`) in uppercase hex. -/
def urlencodeChar (c : Char) : List Char :=
  if ('A' ≤ c ∧ c ≤ 'Z') ∨ ('a' ≤ c ∧ c ≤ 'z') ∨ ('0' ≤ c ∧ c ≤ '9') ∨
      c = '-' ∨ c = '_' ∨ c = '.' ∨ c = '~' then [c]
  else if c = ' ' then ['%', '2', '0']
  else ['%', (("0123456789ABCDEF").data.getD (c.toNat % 256 / 16) '0'),
        (("0123456789ABCDEF").data.getD (c.toNat % 256 % 16) '0')]

/-- Model of `urlencoding::encode` (lib.rs 818–828). -/
def urlencode (s : String) : String :=
  String.mk (s.data.flatMap urlencodeChar)

/-- The fixed scope list of `start_oauth_flow` (lib.rs 260–267), joined with `" "`. -/
def oauthScopes : String :=
  String.intercalate " "
    ["https://www.googleapis.com/auth/userinfo.email",
     "https://www.googleapis.com/auth/userinfo.profile",
     "https://www.googleapis.com/auth/forms.body",
     "https://www.googleapis.com/auth/forms.responses.readonly",
     "https://www.googleapis.com/auth/gmail.send",
     "https://www.googleapis.com/auth/drive"]

/-- The redirect URI `format!("http://localhost:{}/callback", port)` (lib.rs 258). -/
def redirectUriFor (port : Nat) : String :=
  "http://localhost:" ++ Nat.repr port ++ "/callback"

/-- The authorization URL built at lib.rs 269–274. -/
def googleAuthUrl (client_id redirect_uri : String) : String :=
  "https://accounts.google.com/o/oauth2/v2/auth?client_id=" ++ client_id ++
    "&redirect_uri=" ++ urlencode redirect_uri ++
    "&response_type=code&scope=" ++ urlencode oauthScopes ++
    "&access_type=offline&prompt=consent"

/-- The JSON value `{ "auth_url": ..., "port": ... }` returned by `start_oauth_flow`. -/
structure OAuthFlowResult where
  auth_url : String
  port : Nat
deriving DecidableEq

/-- Model of `start_oauth_flow` (lib.rs 241–280): scan ports 8080..=8090 for the
first free one; if none, fail; otherwise return the authorization URL embedding
that port's redirect URI, together with the port. -/
def start_oauth_flow (free : Nat → Bool) (client_id : String) :
    Except String OAuthFlowResult :=
  match scanPorts free 8080 11 with
  | some port => .ok ⟨googleAuthUrl client_id (redirectUriFor port), port⟩
  | none => .error "Could not find an available port for OAuth callback"

/-- The address `format!("127.0.0.1:{}", port)` bound by `wait_for_oauth_callback`
(lib.rs 285). -/
def callbackBindAddr (port : Nat) : String :=
  "127.0.0.1:" ++ Nat.repr port

theorem scanPorts_hits (free : Nat → Bool) :
    ∀ (fuel start p : Nat), start ≤ p → p < start + fuel → free p = true →
      (∀ q, start ≤ q → q < p → free q = false) →
      scanPorts free start fuel = some p := by
  intro fuel
  induction fuel with
  | zero => intro start p h1 h2 _ _; omega
  | succ k ih =>
    intro start p h1 h2 h3 h4
    by_cases hs : start = p
    · subst hs; simp [scanPorts, h3]
    · have hfs : free start = false := h4 start (Nat.le_refl start) (by omega)
      have : scanPorts free (start + 1) k = some p := by
        apply ih (start + 1) p (by omega) (by omega) h3
        intro q hq1 hq2
        exact h4 q (by omega) hq2
      simp [scanPorts, hfs, this]

theorem scanPorts_misses (free : Nat → Bool) :
    ∀ (fuel start : Nat), (∀ q, start ≤ q → q < start + fuel → free q = false) →
      scanPorts free start fuel = none := by
  intro fuel
  induction fuel with
  | zero => intro start _; rfl
  | succ k ih =>
    intro start h
    have hfs : free start = false := h start (Nat.le_refl start) (by omega)
    have : scanPorts free (start + 1) k = none := by
      apply ih
      intro q hq1 hq2
      exact h q (by omega) (by omega)
    simp [scanPorts, hfs, this]

/-- C6: when `p` is the lowest-numbered free port in 8080..=8090, `start_oauth_flow`
returns `p` together with an authorization URL in which the URL-encoded redirect
URI for that same port is embedded, and the capture listener for the returned
port binds an address carrying the same port number. -/
theorem start_oauth_flow_first_free_port (free : Nat → Bool) (client_id : String)
    (p : Nat) (hlo : 8080 ≤ p) (hhi : p ≤ 8090) (hfree : free p = true)
    (hfirst : ∀ q, 8080 ≤ q → q < p → free q = false) :
    start_oauth_flow free client_id =
        .ok ⟨googleAuthUrl client_id (redirectUriFor p), p⟩ ∧
      (∃ a b, googleAuthUrl client_id (redirectUriFor p) =
        a ++ urlencode (redirectUriFor p) ++ b) ∧
      (∃ a b, callbackBindAddr p = a ++ Nat.repr p ++ b) := by
  refine ⟨?_, ?_, ?_⟩
  · have hscan : scanPorts free 8080 11 = some p :=
      scanPorts_hits free 11 8080 p hlo (by omega) hfree hfirst
    simp [start_oauth_flow, hscan]
  · exact ⟨"https://accounts.google.com/o/oauth2/v2/auth?client_id=" ++ client_id ++
      "&redirect_uri=",
      "&response_type=code&scope=" ++ urlencode oauthScopes ++
        "&access_type=offline&prompt=consent",
      by simp [googleAuthUrl, String.append_assoc]⟩
  · exact ⟨"127.0.0.1:", "", by simp [callbackBindAddr]⟩

/-- C6 witness: with every port free, the flow picks 8080 and embeds it consistently. -/
theorem start_oauth_flow_first_free_port_witness :
    start_oauth_flow (fun _ => true) "cid" =
        .ok ⟨googleAuthUrl "cid" (redirectUriFor 8080), 8080⟩ ∧
      (∃ a b, googleAuthUrl "cid" (redirectUriFor 8080) =
        a ++ urlencode (redirectUriFor 8080) ++ b) ∧
      (∃ a b, callbackBindAddr 8080 = a ++ Nat.repr 8080 ++ b) :=
  start_oauth_flow_first_free_port (fun _ => true) "cid" 8080 (by decide) (by decide)
    rfl (fun q h1 h2 => absurd (Nat.lt_of_le_of_lt h1 h2) (Nat.lt_irrefl 8080))

/-- C7: when no port in 8080..=8090 binds, `start_oauth_flow` returns the
unavailability error, not a port or URL. -/
theorem start_oauth_flow_no_free_port (free : Nat → Bool) (client_id : String)
    (h : ∀ q, 8080 ≤ q → q ≤ 8090 → free q = false) :
    start_oauth_flow free client_id =
      .error "Could not find an available port for OAuth callback" := by
  have hscan : scanPorts free 8080 11 = none := by
    apply scanPorts_misses
    intro q hq1 hq2
    exact h q hq1 (by omega)
  simp [start_oauth_flow, hscan]

/-- C7 witness: with no port free, the flow reports unavailability. -/
theorem start_oauth_flow_no_free_port_witness :
    start_oauth_flow (fun _ => false) "cid" =
      .error "Could not find an available port for OAuth callback" :=
  start_oauth_flow_no_free_port (fun _ => false) "cid" (fun _ _ _ => rfl)

/-! ## OAuth callback capture (`wait_for_oauth_callback`, lib.rs 284–388)

The listener hands the handler at most one request URL; `conn = some url` models
the first inbound request carrying the raw request line URL, `conn = none`
models the listener terminating without a connection.  The code extraction
(lib.rs 373–384) is `url.find("code=")`, then the slice up to the next `'&'`.
-/

/-- The pattern `"code="` searched for in the callback URL. -/
def codePat : List Char := ("code=").data

/-- The authorization-code extraction of lib.rs 373–379: substring after the
first occurrence of `"code="`, cut at the next `'&'` if any. -/
def extract_code (url : List Char) : Option (List Char) :=
  match findSub codePat url with
  | none => none
  | some i =>
    match findSub ['&'] (url.drop (i + 5)) with
    | some j => some ((url.drop (i + 5)).take j)
    | none => some (url.drop (i + 5))

/-- Model of `wait_for_oauth_callback`'s result (lib.rs 284–388) given the first
inbound request's URL (or `none` when the listener stops without a connection). -/
def wait_for_oauth_callback (conn : Option (List Char)) : Except String (List Char) :=
  match conn with
  | some url =>
    match extract_code url with
    | some c => .ok c
    | none => .error "No authorization code found in callback"
  | none => .error "Server stopped without receiving callback"

theorem singleton_prefix_mem (c : Char) (l : List Char)
    (h : ([c]).isPrefixOf l = true) : c ∈ l := by
  cases l with
  | nil => simp [List.isPrefixOf] at h
  | cons x t =>
    simp only [List.isPrefixOf, Bool.and_eq_true, beq_iff_eq] at h
    exact h.1 ▸ List.mem_cons_self x t

/-- C4 (amended): when the first occurrence of `"code="` in the URL is the one
following the explicit `'&'` (no earlier occurrence, e.g. no `error_code=`
parameter before it), and the code value `A` contains no `'&'`, the extraction
returns exactly `A` — both when followed by further parameters (`s = '&' :: _`)
and when `code` is the last parameter (`s = []`). -/
theorem extract_code_exact (p A s : List Char)
    (h1 : ∀ j, j < p.length + 1 →
      codePat.isPrefixOf ((p ++ '&' :: (codePat ++ (A ++ s))).drop j) = false)
    (h2 : '&' ∉ A)
    (h3 : s = [] ∨ ∃ s2, s = '&' :: s2) :
    extract_code (p ++ '&' :: (codePat ++ (A ++ s))) = some A := by
  have hdrop1 : (p ++ '&' :: (codePat ++ (A ++ s))).drop (p.length + 1) =
      codePat ++ (A ++ s) := by
    have hd := List.drop_drop 1 p.length (p ++ '&' :: (codePat ++ (A ++ s)))
    rw [List.drop_left] at hd
    exact hd.symm
  have hfind : findSub codePat (p ++ '&' :: (codePat ++ (A ++ s))) =
      some (p.length + 1) := by
    apply findSub_some
    · rw [hdrop1]; exact isPrefixOf_self_append codePat (A ++ s)
    · exact h1
  have hlen5 : codePat.length = 5 := rfl
  have hdrop2 : (p ++ '&' :: (codePat ++ (A ++ s))).drop (p.length + 1 + 5) =
      A ++ s := by
    have hd := List.drop_drop 5 (p.length + 1) (p ++ '&' :: (codePat ++ (A ++ s)))
    rw [hdrop1] at hd
    rw [← hd, ← hlen5, List.drop_left]
  rcases h3 with hs | ⟨s2, hs⟩
  · subst hs
    simp only [List.append_nil] at hfind hdrop2
    have hnone : findSub ['&'] A = none := by
      apply findSub_none
      intro j hj
      cases hv : (['&'] : List Char).isPrefixOf (A.drop j) with
      | false => rfl
      | true => exact absurd (List.drop_subset j A (singleton_prefix_mem '&' _ hv)) h2
    simp [extract_code, hfind, hdrop2, hnone]
  · subst hs
    have hsome : findSub ['&'] (A ++ '&' :: s2) = some A.length := by
      apply findSub_some
      · rw [List.drop_left]; simp [List.isPrefixOf]
      · exact no_occ_head '&' [] A ('&' :: s2) h2
    simp [extract_code, hfind, hdrop2, hsome, List.take_left]

/-- C4 witness: a well-formed callback URL `/callback?x=1&code=ABC&state=xyz`
yields exactly `ABC`. -/
theorem extract_code_exact_witness :
    extract_code (("/callback?x=1").data ++
        '&' :: (codePat ++ (("ABC").data ++ ("&state=xyz").data))) =
      some (("ABC").data) :=
  extract_code_exact (("/callback?x=1").data) (("ABC").data) (("&state=xyz").data)
    (by decide) (by decide) (Or.inr ⟨("state=xyz").data, rfl⟩)

/-- C4 counterexample: the URL `?error_code=5&code=ABC&state=x` contains the
substring `&code=ABC&state=` yet the extraction returns `5`, because the first
occurrence of `code=` lies inside `error_code=`. -/
theorem extract_code_claim_cx :
    ("?error_code=5&code=ABC&state=x" : String) =
        "?error_code=5" ++ "&code=" ++ "ABC" ++ "&state=" ++ "x" ∧
      extract_code (("?error_code=5&code=ABC&state=x").data) = some (("5").data) ∧
      ("5" : String) ≠ "ABC" :=
  ⟨rfl, by decide, by decide⟩

/-- C5: a callback URL without any `code=` substring produces exactly the
missing-code failure message — not a deserialization error and not the generic
no-connection failure. -/
theorem wait_for_oauth_callback_missing_code (url : List Char)
    (h : ∀ j, j ≤ url.length → codePat.isPrefixOf (url.drop j) = false) :
    wait_for_oauth_callback (some url) =
      .error "No authorization code found in callback" := by
  have hnone : findSub codePat url = none := findSub_none codePat url h
  simp [wait_for_oauth_callback, extract_code, hnone]

/-- C5 witness: a denial callback URL carrying no `code=` reports the
missing-code failure. -/
theorem wait_for_oauth_callback_missing_code_witness :
    wait_for_oauth_callback (some (("/callback?error=access_denied").data)) =
      .error "No authorization code found in callback" :=
  wait_for_oauth_callback_missing_code (("/callback?error=access_denied").data)
    (by decide)

/-! ## Email message construction and round-trip (C8, C3)

`build_email_content` is the RFC 2822 raw message string built by
`send_gmail_email` (lib.rs 209–212); the SMTP path (`send_invoice_email`,
lib.rs 166–178) feeds the same from/to/subject/body data to `lettre`'s message
builder, whose wire format is the same header/body layout.  No parser exists in
the repository, so the parser below is modelled from the spec.
-/

/-- The from/to/subject/body data both email senders are built from. -/
structure EmailFields where
  from_name : String
  from_email : String
  to_name : String
  to_email : String
  subject : String
  html_body : String
deriving DecidableEq

/-- The raw RFC 2822 message of `send_gmail_email` (lib.rs 209–212). -/
def build_email_content (f : EmailFields) : String :=
  "From: " ++ f.from_name ++ " <" ++ f.from_email ++ ">\r\nTo: " ++ f.to_name ++
    " <" ++ f.to_email ++ ">\r\nSubject: " ++ f.subject ++
    "\r\nMIME-Version: 1.0\r\nContent-Type: text/html; charset=utf-8\r\n\r\n" ++
    f.html_body

/-- The `"From: "` label opening the raw message. -/
def lblFrom : List Char := ("From: ").data

/-- The `" <"` delimiter between a display name and its address. -/
def sepAddr : List Char := (" <").data

/-- The delimiter closing the from-address and opening the `To` header. -/
def sepTo : List Char := (">\r\nTo: ").data

/-- The delimiter closing the to-address and opening the `Subject` header. -/
def sepSubj : List Char := (">\r\nSubject: ").data

/-- The fixed MIME header block separating the subject from the HTML body. -/
def sepMime : List Char :=
  ("\r\nMIME-Version: 1.0\r\nContent-Type: text/html; charset=utf-8\r\n\r\n").data

/-- Modelled from the spec: §8 requires that "building an SMTP/Gmail message
with given from/to/subject/body and then parsing the resulting raw content must
recover the same from/to/subject/body values", but the repository contains no
parser, so this is the straightforward parse of the raw layout produced by
`build_email_content`: strip the `From: ` label, then cut at the first
occurrence of each following delimiter. -/
def parse_email_content (s : List Char) : Option EmailFields :=
  match stripPre lblFrom s with
  | none => none
  | some r1 =>
    match splitFirst sepAddr r1 with
    | none => none
    | some (fn, r2) =>
      match splitFirst sepTo r2 with
      | none => none
      | some (fe, r3) =>
        match splitFirst sepAddr r3 with
        | none => none
        | some (tn, r4) =>
          match splitFirst sepSubj r4 with
          | none => none
          | some (te, r5) =>
            match splitFirst sepMime r5 with
            | none => none
            | some (subj, body) =>
              some ⟨String.mk fn, String.mk fe, String.mk tn, String.mk te,
                String.mk subj, String.mk body⟩

/-- C8 (amended): building the message and parsing the raw content recovers the
exact from/to/subject/body values, provided the display names contain no `'<'`,
the addresses no `'>'`, and the subject no carriage return — without those
restrictions the raw format is ambiguous (see the counterexample). -/
theorem email_roundtrip (f : EmailFields)
    (hfn : '<' ∉ f.from_name.data) (hfe : '>' ∉ f.from_email.data)
    (htn : '<' ∉ f.to_name.data) (hte : '>' ∉ f.to_email.data)
    (hsub : '\r' ∉ f.subject.data) :
    parse_email_content (build_email_content f).data = some f := by
  have hdata : (build_email_content f).data =
      lblFrom ++ (f.from_name.data ++ (sepAddr ++ (f.from_email.data ++ (sepTo ++
        (f.to_name.data ++ (sepAddr ++ (f.to_email.data ++ (sepSubj ++
          (f.subject.data ++ (sepMime ++ f.html_body.data)))))))))) := by
    simp only [build_email_content, String.data_append, List.append_assoc]
    rfl
  have h1 : stripPre lblFrom ((build_email_content f).data) =
      some (f.from_name.data ++ (sepAddr ++ (f.from_email.data ++ (sepTo ++
        (f.to_name.data ++ (sepAddr ++ (f.to_email.data ++ (sepSubj ++
          (f.subject.data ++ (sepMime ++ f.html_body.data)))))))))) := by
    rw [hdata]; exact stripPre_append _ _
  have h2 : splitFirst sepAddr (f.from_name.data ++ (sepAddr ++ (f.from_email.data ++
      (sepTo ++ (f.to_name.data ++ (sepAddr ++ (f.to_email.data ++ (sepSubj ++
        (f.subject.data ++ (sepMime ++ f.html_body.data)))))))))) =
      some (f.from_name.data, f.from_email.data ++ (sepTo ++ (f.to_name.data ++
        (sepAddr ++ (f.to_email.data ++ (sepSubj ++ (f.subject.data ++
          (sepMime ++ f.html_body.data)))))))) :=
    splitFirst_eq sepAddr _ _ (no_occ_pair ' ' '<' f.from_name.data _ hfn (by decide))
  have h3 : splitFirst sepTo (f.from_email.data ++ (sepTo ++ (f.to_name.data ++
      (sepAddr ++ (f.to_email.data ++ (sepSubj ++ (f.subject.data ++
        (sepMime ++ f.html_body.data)))))))) =
      some (f.from_email.data, f.to_name.data ++ (sepAddr ++ (f.to_email.data ++
        (sepSubj ++ (f.subject.data ++ (sepMime ++ f.html_body.data)))))) :=
    splitFirst_eq sepTo _ _ (no_occ_head '>' (("\r\nTo: ").data) f.from_email.data _ hfe)
  have h4 : splitFirst sepAddr (f.to_name.data ++ (sepAddr ++ (f.to_email.data ++
      (sepSubj ++ (f.subject.data ++ (sepMime ++ f.html_body.data)))))) =
      some (f.to_name.data, f.to_email.data ++ (sepSubj ++ (f.subject.data ++
        (sepMime ++ f.html_body.data)))) :=
    splitFirst_eq sepAddr _ _ (no_occ_pair ' ' '<' f.to_name.data _ htn (by decide))
  have h5 : splitFirst sepSubj (f.to_email.data ++ (sepSubj ++ (f.subject.data ++
      (sepMime ++ f.html_body.data)))) =
      some (f.to_email.data, f.subject.data ++ (sepMime ++ f.html_body.data)) :=
    splitFirst_eq sepSubj _ _
      (no_occ_head '>' (("\r\nSubject: ").data) f.to_email.data _ hte)
  have h6 : splitFirst sepMime (f.subject.data ++ (sepMime ++ f.html_body.data)) =
      some (f.subject.data, f.html_body.data) :=
    splitFirst_eq sepMime _ _
      (no_occ_head '\r'
        (("\nMIME-Version: 1.0\r\nContent-Type: text/html; charset=utf-8\r\n\r\n").data)
        f.subject.data _ hsub)
  simp only [parse_email_content, h1, h2, h3, h4, h5, h6]

/-- C8 witness: a concrete well-formed email round-trips exactly. -/
theorem email_roundtrip_witness :
    parse_email_content (build_email_content
        ⟨"Alice", "alice@example.com", "Bob", "bob@example.com",
          "Invoice 42", "<b>Hi</b>"⟩).data =
      some ⟨"Alice", "alice@example.com", "Bob", "bob@example.com",
        "Invoice 42", "<b>Hi</b>"⟩ :=
  email_roundtrip _ (by decide) (by decide) (by decide) (by decide) (by decide)

/-- A subject smuggling the MIME header block, and the message it collides with. -/
def crlfInjectedFields : EmailFields :=
  ⟨"N", "n@x", "M", "m@x",
    "S\r\nMIME-Version: 1.0\r\nContent-Type: text/html; charset=utf-8\r\n\r\nY", "Z"⟩

/-- The distinct field assignment producing the same raw message. -/
def collidingFields : EmailFields :=
  ⟨"N", "n@x", "M", "m@x",
    "S", "Y\r\nMIME-Version: 1.0\r\nContent-Type: text/html; charset=utf-8\r\n\r\nZ"⟩

/-- C8 counterexample: two different from/to/subject/body assignments build the
very same raw message, so no parser — the modelled one included — can recover
both; the claimed universal round-trip is false. -/
theorem email_roundtrip_cx :
    build_email_content crlfInjectedFields = build_email_content collidingFields ∧
      crlfInjectedFields ≠ collidingFields ∧
      ¬(parse_email_content (build_email_content crlfInjectedFields).data =
            some crlfInjectedFields ∧
          parse_email_content (build_email_content collidingFields).data =
            some collidingFields) := by
  have hEq : build_email_content crlfInjectedFields =
      build_email_content collidingFields := rfl
  have hNe : crlfInjectedFields ≠ collidingFields := by decide
  refine ⟨hEq, hNe, ?_⟩
  rintro ⟨ha, hb⟩
  rw [hEq] at ha
  exact hNe (Option.some.inj (ha.symm.trans hb))

/-! ## Gmail raw message encoding (`send_gmail_email`, lib.rs 206–221, C3)

The code encodes the message with `base64::engine::general_purpose::URL_SAFE`,
which is the URL-safe alphabet **with** `'='` padding (`URL_SAFE_NO_PAD` is the
unpadded engine, and is not what the code uses).  Bytes are modelled as `Nat`
values below 256; `str::as_bytes` is the UTF-8 encoding of the string.
-/

/-- The URL-safe base64 alphabet (`A–Z a–z 0–9 - _`). -/
def b64Alphabet : List Char :=
  ("ABCDEFGHIJKLMNOPQRSTUVWXYZabcdefghijklmnopqrstuvwxyz0123456789-_").data

/-- The alphabet character for a 6-bit group. -/
def b64Char (n : Nat) : Char := b64Alphabet.getD n 'A'

/-- base64url encoding with `'='` padding, as `URL_SAFE.encode` performs. -/
def base64url_encode : List Nat → List Char
  | [] => []
  | [a] => [b64Char (a / 4), b64Char (a % 4 * 16), '=', '=']
  | [a, b] => [b64Char (a / 4), b64Char (a % 4 * 16 + b / 16), b64Char (b % 16 * 4), '=']
  | a :: b :: c :: rest =>
    b64Char (a / 4) :: b64Char (a % 4 * 16 + b / 16) :: b64Char (b % 16 * 4 + c / 64) ::
      b64Char (c % 64) :: base64url_encode rest

/-- Modelled from the spec: "base64url-encode it without padding" — the unpadded
base64url encoding the claim asserts the code performs, for comparison. -/
def base64url_encode_nopad : List Nat → List Char
  | [] => []
  | [a] => [b64Char (a / 4), b64Char (a % 4 * 16)]
  | [a, b] => [b64Char (a / 4), b64Char (a % 4 * 16 + b / 16), b64Char (b % 16 * 4)]
  | a :: b :: c :: rest =>
    b64Char (a / 4) :: b64Char (a % 4 * 16 + b / 16) :: b64Char (b % 16 * 4 + c / 64) ::
      b64Char (c % 64) :: base64url_encode_nopad rest

/-- Number of `'='` padding characters for an input of `n` bytes. -/
def b64PadLen (n : Nat) : Nat := (3 - n % 3) % 3

/-- UTF-8 encoding of a Unicode scalar value, as `str::as_bytes` yields it. -/
def utf8Char (c : Nat) : List Nat :=
  if c < 128 then [c]
  else if c < 2048 then [192 + c / 64, 128 + c % 64]
  else if c < 65536 then [224 + c / 4096, 128 + c / 64 % 64, 128 + c % 64]
  else [240 + c / 262144, 128 + c / 4096 % 64, 128 + c / 64 % 64, 128 + c % 64]

/-- The UTF-8 bytes of a string (`str::as_bytes`). -/
def strBytes (s : String) : List Nat := s.data.flatMap (fun c => utf8Char c.toNat)

/-- The JSON request body `{ "raw": ... }` of the Gmail send call (lib.rs 219–221):
its single field is the encoded message. -/
structure GmailSendBody where
  raw : String

/-- The request body built by `send_gmail_email` (lib.rs 209–221): the raw
RFC 2822 message, URL-safe base64 encoded, as the single `raw` field. -/
def send_gmail_email_body (f : EmailFields) : GmailSendBody :=
  ⟨String.mk (base64url_encode (strBytes (build_email_content f)))⟩

theorem b64_pad_split : ∀ (l : List Nat),
    base64url_encode l =
      base64url_encode_nopad l ++ List.replicate (b64PadLen l.length) '='
  | [] => rfl
  | [_] => rfl
  | [_, _] => rfl
  | a :: b :: c :: rest => by
    have ih := b64_pad_split rest
    have hmod : b64PadLen (rest.length + 3) = b64PadLen rest.length := by
      simp [b64PadLen, Nat.add_mod_right]
    simp only [base64url_encode, base64url_encode_nopad, ih, List.length_cons,
      List.cons_append]
    have : rest.length + 1 + 1 + 1 = rest.length + 3 := by omega
    rw [this, hmod]

theorem b64_len_mod4 : ∀ (l : List Nat), (base64url_encode l).length % 4 = 0
  | [] => rfl
  | [_] => by simp [base64url_encode]
  | [_, _] => by simp [base64url_encode]
  | a :: b :: c :: rest => by
    have ih := b64_len_mod4 rest
    simp only [base64url_encode, List.length_cons]
    omega

/-- C3 (amended): `send_gmail_email` posts, as the single JSON field `raw`, the
base64url encoding **with** `'='` padding of the UTF-8 bytes of the RFC 2822
message it builds — i.e. the unpadded encoding followed by the `'='` fill to a
multiple of four characters. -/
theorem send_gmail_email_body_padded (f : EmailFields) :
    (send_gmail_email_body f).raw.data =
        base64url_encode_nopad (strBytes (build_email_content f)) ++
          List.replicate (b64PadLen (strBytes (build_email_content f)).length) '=' ∧
      (send_gmail_email_body f).raw.data.length % 4 = 0 :=
  ⟨b64_pad_split _, b64_len_mod4 _⟩

/-- C3 counterexample: on a concrete message whose byte length is not a multiple
of three, the posted `raw` field is **not** the unpadded base64url encoding of
the message (the code pads with `'='`). -/
theorem send_gmail_email_body_nopad_cx :
    (send_gmail_email_body ⟨"A", "a", "B", "b", "S", "H"⟩).raw.data ≠
      base64url_encode_nopad
        (strBytes (build_email_content ⟨"A", "a", "B", "b", "S", "H"⟩)) := by
  decide

/-! ## HTTP response handling of the API operations (C2, C1)

Each operation receives an `HttpResponse` (status and body text, the body being
what `response.text()` yields, `""` when unavailable) and a parse function
standing for `serde_json` deserialisation, whose error carries serde's message.
Transport-level failures (`reqwest` send errors) are uniform `map_err`
conversions upstream of the status check and are not modelled.
-/

/-- An HTTP response as the handlers see it: status code and body text. -/
structure HttpResponse where
  status : Nat
  body : String

/-- Rust's `StatusCode::is_success()`: the 2xx range. -/
def is2xx (n : Nat) : Bool := 200 ≤ n && n < 300

/-- Display of `http::StatusCode` (`"{code} {canonical reason}"`), given for the
status codes appearing in this development. -/
def status_display (n : Nat) : String :=
  Nat.repr n ++
    (if n = 400 then " Bad Request"
     else if n = 403 then " Forbidden"
     else if n = 404 then " Not Found"
     else if n = 500 then " Internal Server Error"
     else "")

/-- The OAuth token record (lib.rs 28–35). -/
structure GoogleTokenResponse where
  access_token : String
  refresh_token : Option String
  expires_in : Int
  token_type : String
  scope : Option String
deriving DecidableEq

/-- The user-info record (lib.rs 37–42). -/
structure GoogleUserInfo where
  email : String
  name : Option String
  picture : Option String
deriving DecidableEq

/-- Form metadata (lib.rs 53–58). -/
structure GoogleFormInfo where
  title : String
  document_title : Option String
deriving DecidableEq

/-- The created-form record (lib.rs 44–51). -/
structure GoogleFormResponse where
  form_id : String
  responder_uri : String
  info : GoogleFormInfo
deriving DecidableEq

/-- A single text answer (lib.rs 87–90). -/
structure TextAnswer where
  value : String
deriving DecidableEq

/-- The text answers of one question (lib.rs 82–85). -/
structure TextAnswers where
  answers : List TextAnswer
deriving DecidableEq

/-- One question's answer data (lib.rs 74–80). -/
structure AnswerData where
  question_id : String
  text_answers : Option TextAnswers
deriving DecidableEq

/-- One form response (lib.rs 65–72); the `HashMap` keyed by question id is
modelled as an association list. -/
structure FormResponse where
  response_id : String
  create_time : String
  answers : Option (List (String × AnswerData))
deriving DecidableEq

/-- The responses payload (lib.rs 60–63). -/
structure FormResponsesData where
  responses : Option (List FormResponse)
deriving DecidableEq

/-- A question id (lib.rs 113–117). -/
structure Question where
  question_id : String
deriving DecidableEq

/-- A question item (lib.rs 108–111). -/
structure QuestionItem where
  question : Question
deriving DecidableEq

/-- One form item (lib.rs 99–106). -/
structure FormItem where
  item_id : String
  title : Option String
  question_item : Option QuestionItem
deriving DecidableEq

/-- The form schema payload (lib.rs 92–97). -/
structure GoogleFormDetails where
  form_id : String
  items : Option (List FormItem)
deriving DecidableEq

/-- A Drive file record (lib.rs 120–127). -/
structure DriveFile where
  id : String
  name : String
  mime_type : String
  parents : Option (List String)
deriving DecidableEq

/-- A Drive file listing (lib.rs 129–132). -/
structure DriveFileList where
  files : List DriveFile
deriving DecidableEq

/-- A scanned form entry (lib.rs 134–140). -/
structure ScannedForm where
  form_id : String
  name : String
  url : String
  responder_url : String
deriving DecidableEq

/-- Response handling of `exchange_google_code` (lib.rs 428–444). -/
def exchange_google_code (parse : String → Except String GoogleTokenResponse)
    (r : HttpResponse) : Except String GoogleTokenResponse :=
  if is2xx r.status then
    match parse r.body with
    | .ok v => .ok v
    | .error e => .error ("Failed to parse token response: " ++ e)
  else .error ("Token exchange failed: " ++ r.body)

/-- Response handling of `refresh_google_token` (lib.rs 462–478). -/
def refresh_google_token (parse : String → Except String GoogleTokenResponse)
    (r : HttpResponse) : Except String GoogleTokenResponse :=
  if is2xx r.status then
    match parse r.body with
    | .ok v => .ok v
    | .error e => .error ("Failed to parse token response: " ++ e)
  else .error ("Token refresh failed: " ++ r.body)

/-- Response handling of `get_google_user_info` (lib.rs 485–501). -/
def get_google_user_info (parse : String → Except String GoogleUserInfo)
    (r : HttpResponse) : Except String GoogleUserInfo :=
  if is2xx r.status then
    match parse r.body with
    | .ok v => .ok v
    | .error e => .error ("Failed to parse user info: " ++ e)
  else .error ("Failed to get user info: " ++ r.body)

/-- Response handling of `send_gmail_email` (lib.rs 223–236). -/
def send_gmail_email_result (r : HttpResponse) : Except String String :=
  if is2xx r.status then .ok "Email sent successfully via Gmail"
  else .error ("Gmail API error: " ++ r.body)

/-- Response handling of the form-creation POST inside `create_google_form`
(lib.rs 620–636). -/
def create_form_call (parse : String → Except String GoogleFormResponse)
    (r : HttpResponse) : Except String GoogleFormResponse :=
  if is2xx r.status then
    match parse r.body with
    | .ok v => .ok v
    | .error e => .error ("Failed to parse form response: " ++ e)
  else .error ("Failed to create form: " ++ r.body)

/-- Response handling of `add_form_questions`' batch update (lib.rs 776–789). -/
def add_form_questions_result (r : HttpResponse) : Except String String :=
  if is2xx r.status then .ok "Questions added successfully"
  else .error ("Failed to add questions: " ++ r.body)

/-- Response handling of `get_form_responses` (lib.rs 800–815). -/
def get_form_responses (parse : String → Except String FormResponsesData)
    (r : HttpResponse) : Except String FormResponsesData :=
  if is2xx r.status then
    match parse r.body with
    | .ok v => .ok v
    | .error e => .error ("Failed to parse responses: " ++ e)
  else .error ("Failed to get responses: " ++ r.body)

/-- Response handling of `get_form_details` (lib.rs 838–853). -/
def get_form_details (parse : String → Except String GoogleFormDetails)
    (r : HttpResponse) : Except String GoogleFormDetails :=
  if is2xx r.status then
    match parse r.body with
    | .ok v => .ok v
    | .error e => .error ("Failed to parse form details: " ++ e)
  else .error ("Failed to get form details: " ++ r.body)

/-- Response handling of the helper `find_folder` (lib.rs 506–530): note the
non-2xx branch reports only the status, not the body. -/
def find_folder (parse : String → Except String DriveFileList)
    (r : HttpResponse) : Except String (Option String) :=
  if is2xx r.status then
    match parse r.body with
    | .ok l => .ok ((l.files.head?).map (fun f => f.id))
    | .error e => .error ("Failed to parse file list: " ++ e)
  else .error ("Drive API error: " ++ status_display r.status)

/-- Response handling of the helper `create_folder` (lib.rs 533–557): the
non-2xx branch reports only the status. -/
def create_folder (parse : String → Except String DriveFile)
    (r : HttpResponse) : Except String String :=
  if is2xx r.status then
    match parse r.body with
    | .ok f => .ok f.id
    | .error e => .error ("Failed to parse created folder: " ++ e)
  else .error ("Drive API create error: " ++ status_display r.status)

/-- Outcome of the helper `move_file_to_folder` (lib.rs 560–604), determined by
the PATCH response (the preceding parents lookup only shapes the request and
tolerates its own failure); the non-2xx branch reports only the status. -/
def move_file_to_folder (rPatch : HttpResponse) : Except String Unit :=
  if is2xx rPatch.status then .ok ()
  else .error ("Failed to move file to folder: " ++ status_display rPatch.status)

/-- Model of `scan_drive_forms` (lib.rs 656–702): resolve the `po-tracker`
folder (find, else create), then list the forms in it; `findRes`/`createRes`
are the outcomes of the two helper calls, `rList` the listing response. -/
def scan_drive_forms (findRes : Except String (Option String))
    (createRes : Except String String) (rList : HttpResponse)
    (parse : String → Except String DriveFileList) : Except String (List ScannedForm) :=
  match (match findRes with
         | .ok (some id) => Except.ok id
         | .ok none => createRes
         | .error e => Except.error e) with
  | .error e => .error e
  | .ok _folder_id =>
    if is2xx rList.status then
      match parse rList.body with
      | .ok l => .ok (l.files.map (fun file =>
          ⟨file.id, file.name,
            "https://docs.google.com/forms/d/" ++ file.id ++ "/edit",
            "https://docs.google.com/forms/d/" ++ file.id ++ "/viewform"⟩))
      | .error e => .error ("Failed to parse file list: " ++ e)
    else .error ("Drive API list error: " ++ status_display rList.status)

/-- Model of `create_google_form` (lib.rs 607–653): the form-creation POST,
then the folder lookup/creation (whose failures propagate through `?` at
lib.rs 639–641), then the move, whose failure alone is only logged
(lib.rs 647–650). -/
def create_google_form (parse : String → Except String GoogleFormResponse)
    (r : HttpResponse) (findRes : Except String (Option String))
    (createRes : Except String String)
    (moveRes : String → String → Except String Unit) :
    Except String GoogleFormResponse :=
  match create_form_call parse r with
  | .error e => .error e
  | .ok form =>
    match (match findRes with
           | .ok (some id) => Except.ok id
           | .ok none => createRes
           | .error e => Except.error e) with
    | .error e => .error e
    | .ok folder_id =>
      match moveRes form.form_id folder_id with
      | .error _ => .ok form
      | .ok _ => .ok form

/-- Whether a result is a failure whose message contains the given text. -/
def failure_contains {T : Type} (x : Except String T) (b : String) : Bool :=
  match x with
  | .error e => containsSub b.data e.data
  | .ok _ => false

theorem findSub_isSome_of (n : List Char) :
    ∀ (s : List Char) (i : Nat), n.isPrefixOf (s.drop i) = true →
      (findSub n s).isSome = true := by
  intro s
  induction s with
  | nil =>
    intro i h
    have : (s : List Char) → List.drop i [] = ([] : List Char) := by simp
    simp only [List.drop_nil] at h
    simp [findSub, h]
  | cons c t ih =>
    intro i h
    by_cases h0 : n.isPrefixOf (c :: t) = true
    · simp [findSub, h0]
    · cases i with
      | zero => simp only [List.drop] at h; exact absurd h h0
      | succ k =>
        simp only [List.drop] at h
        have := ih k h
        simp only [findSub]
        rw [if_neg (by simpa using h0)]
        simpa using this

theorem containsSub_tail (p l : List Char) : containsSub l (p ++ l) = true := by
  apply findSub_isSome_of l (p ++ l) p.length
  rw [List.drop_left]
  simp

theorem failure_contains_append {T : Type} (pre b : String) :
    failure_contains (Except.error (pre ++ b) : Except String T) b = true := by
  simp only [failure_contains, String.data_append]
  exact containsSub_tail pre.data b.data

/-- C2 (amended): on any non-2xx response, the token exchange/refresh, user
info, Gmail send, form create, question batch-update, form responses and form
details operations all fail with a message containing the response body text
(the Drive helpers `find_folder`/`create_folder`/`move_file_to_folder` and the
listing step of `scan_drive_forms` are the exceptions: they report only the
HTTP status — see the counterexample). -/
theorem api_error_carries_body (r : HttpResponse)
    (pt1 pt2 : String → Except String GoogleTokenResponse)
    (pu : String → Except String GoogleUserInfo)
    (pf : String → Except String GoogleFormResponse)
    (pr : String → Except String FormResponsesData)
    (pd : String → Except String GoogleFormDetails)
    (h : is2xx r.status = false) :
    failure_contains (exchange_google_code pt1 r) r.body = true ∧
      failure_contains (refresh_google_token pt2 r) r.body = true ∧
      failure_contains (get_google_user_info pu r) r.body = true ∧
      failure_contains (send_gmail_email_result r) r.body = true ∧
      failure_contains (create_form_call pf r) r.body = true ∧
      failure_contains (add_form_questions_result r) r.body = true ∧
      failure_contains (get_form_responses pr r) r.body = true ∧
      failure_contains (get_form_details pd r) r.body = true := by
  refine ⟨?_, ?_, ?_, ?_, ?_, ?_, ?_, ?_⟩ <;>
    simp [exchange_google_code, refresh_google_token, get_google_user_info,
      send_gmail_email_result, create_form_call, add_form_questions_result,
      get_form_responses, get_form_details, h, failure_contains_append]

/-- C2 witness: a concrete 500 response with body `boom` is carried in every
such failure message. -/
theorem api_error_carries_body_witness :
    failure_contains
        (exchange_google_code (fun _ => Except.error "e") ⟨500, "boom"⟩) "boom" = true ∧
      failure_contains
        (refresh_google_token (fun _ => Except.error "e") ⟨500, "boom"⟩) "boom" = true ∧
      failure_contains
        (get_google_user_info (fun _ => Except.error "e") ⟨500, "boom"⟩) "boom" = true ∧
      failure_contains (send_gmail_email_result ⟨500, "boom"⟩) "boom" = true ∧
      failure_contains
        (create_form_call (fun _ => Except.error "e") ⟨500, "boom"⟩) "boom" = true ∧
      failure_contains (add_form_questions_result ⟨500, "boom"⟩) "boom" = true ∧
      failure_contains
        (get_form_responses (fun _ => Except.error "e") ⟨500, "boom"⟩) "boom" = true ∧
      failure_contains
        (get_form_details (fun _ => Except.error "e") ⟨500, "boom"⟩) "boom" = true :=
  api_error_carries_body ⟨500, "boom"⟩ (fun _ => Except.error "e")
    (fun _ => Except.error "e") (fun _ => Except.error "e") (fun _ => Except.error "e")
    (fun _ => Except.error "e") (fun _ => Except.error "e") (by decide)

/-- C2 counterexample: `find_folder` — named by the claim — and the exposed
`scan_drive_forms` both turn a 500 response whose body is
`folder quota exceeded` into a failure carrying only the status text, not the
body. -/
theorem drive_error_lacks_body_cx :
    find_folder (fun _ => Except.error "e") ⟨500, "folder quota exceeded"⟩ =
        .error "Drive API error: 500 Internal Server Error" ∧
      failure_contains
        (find_folder (fun _ => Except.error "e") ⟨500, "folder quota exceeded"⟩)
        "folder quota exceeded" = false ∧
      scan_drive_forms
          (find_folder (fun _ => Except.error "e") ⟨500, "folder quota exceeded"⟩)
          (Except.ok "fid") ⟨200, ""⟩ (fun _ => Except.ok ⟨[]⟩) =
        .error "Drive API error: 500 Internal Server Error" ∧
      failure_contains
        (scan_drive_forms
          (find_folder (fun _ => Except.error "e") ⟨500, "folder quota exceeded"⟩)
          (Except.ok "fid") ⟨200, ""⟩ (fun _ => Except.ok ⟨[]⟩))
        "folder quota exceeded" = false :=
  ⟨rfl, by decide, rfl, by decide⟩

/-- A sample created-form record for concrete instantiations. -/
def sampleForm : GoogleFormResponse :=
  ⟨"form-1", "https://docs.google.com/forms/d/form-1/viewform", ⟨"T", none⟩⟩

/-- C1 counterexample: the primary form-creation succeeds, yet a failure of the
folder lookup — part of the side step — is propagated by the `?` at lib.rs 639,
so `create_google_form` returns `Err`, not the created form's identifiers. -/
theorem create_google_form_find_failure_propagates_cx :
    create_form_call (fun _ => Except.ok sampleForm) ⟨200, "ok-body"⟩ =
        .ok sampleForm ∧
      create_google_form (fun _ => Except.ok sampleForm) ⟨200, "ok-body"⟩
          (Except.error "Drive API error: 500 Internal Server Error")
          (Except.ok "fid") (fun _ _ => Except.ok ()) =
        .error "Drive API error: 500 Internal Server Error" :=
  ⟨rfl, rfl⟩

/-- C1 (amended): once the form creation succeeds and the side step has resolved
a folder id (found, or created after not finding one), a failure of the
reparenting move alone is swallowed and `create_google_form` still returns the
created form. -/
theorem create_google_form_move_failure_swallowed
    (parse : String → Except String GoogleFormResponse) (r : HttpResponse)
    (findRes : Except String (Option String)) (createRes : Except String String)
    (form : GoogleFormResponse) (folder_id : String)
    (hform : create_form_call parse r = .ok form)
    (hfolder : findRes = .ok (some folder_id) ∨
      (findRes = .ok none ∧ createRes = .ok folder_id)) :
    ∀ e, create_google_form parse r findRes createRes (fun _ _ => Except.error e) =
      .ok form := by
  intro e
  rcases hfolder with hf | ⟨hf, hc⟩
  · simp [create_google_form, hform, hf]
  · simp [create_google_form, hform, hf, hc]

/-- C1 witness: the form is returned even though the move fails. -/
theorem create_google_form_move_failure_swallowed_witness :
    create_google_form (fun _ => Except.ok sampleForm) ⟨200, "ok-body"⟩
        (Except.ok (some "fid")) (Except.ok "other")
        (fun _ _ => Except.error "move failed") =
      .ok sampleForm :=
  create_google_form_move_failure_swallowed (fun _ => Except.ok sampleForm)
    ⟨200, "ok-body"⟩ (Except.ok (some "fid")) (Except.ok "other") sampleForm "fid"
    rfl (Or.inl rfl) "move failed"

/-! ## Confirmation code (`generate_confirmation_code`, lib.rs 143–151, C9)

`Uuid::new_v4()` draws 16 random bytes (modelled as a `List Nat` of values
below 256, indexed with 0 as default) and forces the RFC 4122 version and
variant bits; `to_string()` renders them as lowercase hyphenated hex in the
8-4-4-4-12 layout.  The repository code takes the first 8 characters of that
string and uppercases them.
-/

/-- A lowercase hex digit. -/
def hexLowerDigit (n : Nat) : Char := ("0123456789abcdef").data.getD n '0'

/-- The two lowercase hex digits of a byte (`{:02x}`). -/
def byteHexLower (b : Nat) : List Char := [hexLowerDigit (b / 16), hexLowerDigit (b % 16)]

/-- The byte at index `i` of the random pool. -/
def byteAt (bs : List Nat) (i : Nat) : Nat := bs.getD i 0

/-- Model of `uuid::Uuid::new_v4().to_string()` (the `uuid` dependency, not in
src): hyphenated lowercase hex of the 16 random bytes, with byte 6 forced to
version 4 and byte 8 to the RFC 4122 variant. -/
def uuidV4String (bs : List Nat) : List Char :=
  byteHexLower (byteAt bs 0) ++ byteHexLower (byteAt bs 1) ++
    byteHexLower (byteAt bs 2) ++ byteHexLower (byteAt bs 3) ++ ['-'] ++
    byteHexLower (byteAt bs 4) ++ byteHexLower (byteAt bs 5) ++ ['-'] ++
    byteHexLower (byteAt bs 6 % 16 + 64) ++ byteHexLower (byteAt bs 7) ++ ['-'] ++
    byteHexLower (byteAt bs 8 % 64 + 128) ++ byteHexLower (byteAt bs 9) ++ ['-'] ++
    byteHexLower (byteAt bs 10) ++ byteHexLower (byteAt bs 11) ++
    byteHexLower (byteAt bs 12) ++ byteHexLower (byteAt bs 13) ++
    byteHexLower (byteAt bs 14) ++ byteHexLower (byteAt bs 15)

/-- ASCII uppercasing of one character, as `String::to_uppercase` acts on the
hex-and-hyphen characters a UUID string contains. -/
def asciiUpper (c : Char) : Char :=
  if 'a' ≤ c ∧ c ≤ 'z' then Char.ofNat (c.toNat - 32) else c

/-- Model of `generate_confirmation_code` (lib.rs 143–151): the first 8
characters of a fresh UUID string, uppercased. -/
def generate_confirmation_code (bs : List Nat) : List Char :=
  ((uuidV4String bs).take 8).map asciiUpper

/-- Uppercase hexadecimal digit (`0`–`9`, `A`–`F`). -/
def isUpperHexDigit (c : Char) : Bool :=
  ('0' ≤ c && c ≤ '9') || ('A' ≤ c && c ≤ 'F')

theorem byteAt_lt (bs : List Nat) (h : ∀ b ∈ bs, b < 256) (i : Nat) :
    byteAt bs i < 256 := by
  unfold byteAt
  induction bs generalizing i with
  | nil => simp [List.getD_nil]
  | cons b t ih =>
    cases i with
    | zero =>
      rw [List.getD_cons_zero]
      exact h b (List.mem_cons_self b t)
    | succ m =>
      rw [List.getD_cons_succ]
      exact ih (fun x hx => h x (List.mem_cons_of_mem b hx)) m

theorem upperHex_of_lt16 : ∀ n, n < 16 →
    isUpperHexDigit (asciiUpper (hexLowerDigit n)) = true := by decide

/-- C9: the confirmation code is the uppercased first 8 characters of a fresh
UUID string; it always has exactly 8 characters, each an uppercase hex digit. -/
theorem generate_confirmation_code_spec (bs : List Nat) (h : ∀ b ∈ bs, b < 256) :
    generate_confirmation_code bs = ((uuidV4String bs).take 8).map asciiUpper ∧
      (generate_confirmation_code bs).length = 8 ∧
      ∀ c ∈ generate_confirmation_code bs, isUpperHexDigit c = true := by
  have htake : (uuidV4String bs).take 8 =
      [hexLowerDigit (byteAt bs 0 / 16), hexLowerDigit (byteAt bs 0 % 16),
       hexLowerDigit (byteAt bs 1 / 16), hexLowerDigit (byteAt bs 1 % 16),
       hexLowerDigit (byteAt bs 2 / 16), hexLowerDigit (byteAt bs 2 % 16),
       hexLowerDigit (byteAt bs 3 / 16), hexLowerDigit (byteAt bs 3 % 16)] := by
    simp [uuidV4String, byteHexLower, List.take_succ_cons, List.take_zero]
  refine ⟨rfl, ?_, ?_⟩
  · simp [generate_confirmation_code, htake]
  · intro c hc
    simp only [generate_confirmation_code, htake, List.map_cons, List.map_nil,
      List.mem_cons, List.not_mem_nil, or_false] at hc
    have h0 := byteAt_lt bs h 0
    have h1 := byteAt_lt bs h 1
    have h2 := byteAt_lt bs h 2
    have h3 := byteAt_lt bs h 3
    rcases hc with hc | hc | hc | hc | hc | hc | hc | hc <;>
      (subst hc; apply upperHex_of_lt16; omega)

/-- C9 witness: a concrete byte pool yields an 8-character uppercase-hex code. -/
theorem generate_confirmation_code_spec_witness :
    generate_confirmation_code [1, 35, 69, 103, 137, 171, 205, 239, 0, 18, 52, 86, 120, 154, 188, 222] =
        ((uuidV4String [1, 35, 69, 103, 137, 171, 205, 239, 0, 18, 52, 86, 120, 154, 188, 222]).take 8).map asciiUpper ∧
      (generate_confirmation_code [1, 35, 69, 103, 137, 171, 205, 239, 0, 18, 52, 86, 120, 154, 188, 222]).length = 8 ∧
      ∀ c ∈ generate_confirmation_code [1, 35, 69, 103, 137, 171, 205, 239, 0, 18, 52, 86, 120, 154, 188, 222],
        isUpperHexDigit c = true :=
  generate_confirmation_code_spec _ (by decide)

/-! ## Form question batch update (`add_form_questions`, lib.rs 705–790, C10)

Each `createItem` request of the batch update is modelled by its claim-relevant
content: title, optional description, required flag, paragraph flag and
location index.  The caller-supplied question JSON objects are modelled by the
two values the code reads from them: `question["name"].as_str()` (an optional
string, defaulted to `"Product"`) and the `{:.2}`-formatted price text used in
the description (the floating-point formatting itself carries no claim content
and is abstracted as the given text).
-/

/-- The two values read from one supplied product-question JSON object. -/
structure FormQuestionInput where
  name : Option String
  priceText : String
deriving DecidableEq

/-- One `createItem` request of the batch update. -/
structure CreateItemRequest where
  title : String
  description : Option String
  required : Bool
  paragraph : Bool
  index : Nat
deriving DecidableEq

/-- The product-quantity question built for one supplied question at loop index
`idx` (lib.rs 752–770): non-required short text at location `idx + 2`. -/
def productItem (q : FormQuestionInput) (idx : Nat) : CreateItemRequest :=
  ⟨"Quantity: " ++ q.name.getD "Product", some ("Price: $" ++ q.priceText),
    false, false, idx + 2⟩

/-- The loop of lib.rs 752–770 pushing one request per supplied question. -/
def productRequests : List FormQuestionInput → Nat → List CreateItemRequest
  | [], _ => []
  | q :: rest, idx => productItem q idx :: productRequests rest (idx + 1)

/-- The full request list of `add_form_questions` (lib.rs 714–770): the fixed
`Your Name` and `Your Email` required short-text questions at indices 0 and 1,
then the product questions. -/
def add_form_questions_requests (qs : List FormQuestionInput) : List CreateItemRequest :=
  ⟨"Your Name", none, true, false, 0⟩ :: ⟨"Your Email", none, true, false, 1⟩ ::
    productRequests qs 0

theorem productRequests_length :
    ∀ (qs : List FormQuestionInput) (k : Nat), (productRequests qs k).length = qs.length := by
  intro qs
  induction qs with
  | nil => intro k; rfl
  | cons q rest ih => intro k; simp [productRequests, ih]

theorem productRequests_getElem :
    ∀ (qs : List FormQuestionInput) (k i : Nat),
      (productRequests qs k)[i]? = (qs[i]?).map (fun q => productItem q (k + i)) := by
  intro qs
  induction qs with
  | nil => intro k i; simp [productRequests]
  | cons q rest ih =>
    intro k i
    cases i with
    | zero => simp [productRequests]
    | succ m =>
      simp only [productRequests, List.getElem?_cons_succ]
      rw [ih (k + 1) m]
      have harith : k + 1 + m = k + (m + 1) := by omega
      rw [harith]

/-- C10: the batch update always places the required short-text `Your Name` and
`Your Email` questions at indices 0 and 1, and the i-th supplied product
question — as a non-required short-text quantity question — at index `i + 2`,
in input order. -/
theorem add_form_questions_layout (qs : List FormQuestionInput) :
    (add_form_questions_requests qs).length = qs.length + 2 ∧
      (add_form_questions_requests qs)[0]? = some ⟨"Your Name", none, true, false, 0⟩ ∧
      (add_form_questions_requests qs)[1]? = some ⟨"Your Email", none, true, false, 1⟩ ∧
      ∀ i, (add_form_questions_requests qs)[i + 2]? =
        (qs[i]?).map (fun q => ⟨"Quantity: " ++ q.name.getD "Product",
          some ("Price: $" ++ q.priceText), false, false, i + 2⟩) := by
  refine ⟨?_, ?_, ?_, ?_⟩
  · simp [add_form_questions_requests, productRequests_length]
  · simp [add_form_questions_requests]
  · simp [add_form_questions_requests]
  · intro i
    have hstep : (add_form_questions_requests qs)[i + 2]? = (productRequests qs 0)[i]? := by
      simp [add_form_questions_requests, List.getElem?_cons_succ]
    rw [hstep, productRequests_getElem qs 0 i]
    simp [productItem]
